import Mathlib

/-!
Shallow embedding of the ESG regulations monitor pipeline, translated from
`src/esg-regulations-monitor-final.py` (with `src/esg-regulations-monitor.py`
and `src/esg_monitor.py` embedded where the claims cite them).

Modelling conventions:
- Python strings are `List Char`; `str.lower` is modelled on the ASCII range
  (every keyword list in the scripts is ASCII).
- `datetime.now()` is an explicit `today : Date` parameter threaded through
  the pipeline.
- `datetime.strptime` is modelled format token by format token following
  CPython's `_strptime` regular expressions (`%Y` is exactly four digits,
  `%d` is `3[01]|[12]\d|0[1-9]|[1-9]`, literal whitespace in a format
  matches one-or-more whitespace, letters match case-insensitively), with
  the `datetime` constructor's range validation (`mkDate`).  The
  locale-dependent extra names accepted by `%Z` are modelled by the two
  always-accepted names `utc` and `gmt`.
- `strftime('%Y-%m-%d')` zero-pads month and day, but emits the year
  unpadded when it is below 1000, as the platform (glibc) `strftime`
  does — so a year-333 date prints as `333-01-01`.
-/

abbrev Str := List Char

/-- Python `str.lower`, modelled on ASCII letters. -/
def pyLower (s : Str) : Str := s.map Char.toLower

/-- Does `n` lead (start) the list `h`?  Used to model substring search. -/
def leadsWith : Str → Str → Bool
  | [], _ => true
  | _ :: _, [] => false
  | a :: n, b :: h => a == b && leadsWith n h

/-- Python's `needle in hay` substring test. -/
def strContains : Str → Str → Bool
  | [], needle => needle.isEmpty
  | c :: t, needle => leadsWith needle (c :: t) || strContains t needle

/-- Python's `any(w in text for w in kws)`. -/
def hasAny (text : Str) (kws : List Str) : Bool :=
  kws.any (fun kw => strContains text kw)

/-- Whitespace characters stripped by Python's `str.strip()`. -/
def isPySpace (c : Char) : Bool :=
  c == ' ' || c == '\t' || c == '\n' || c == '\r' || c.toNat == 11 || c.toNat == 12

/-- Python `s.strip()`. -/
def pyStrip (s : Str) : Str :=
  ((s.dropWhile isPySpace).reverse.dropWhile isPySpace).reverse

/-- Python `s.split(sep)[0]` for a one-character separator. -/
def splitHead (sep : Char) (s : Str) : Str :=
  s.takeWhile (fun c => !(c == sep))

structure Date where
  y : Nat
  m : Nat
  d : Nat
deriving DecidableEq, Repr

def isLeap (y : Nat) : Bool :=
  decide ((y % 4 = 0 ∧ y % 100 ≠ 0) ∨ y % 400 = 0)

def daysInMonth (y m : Nat) : Nat :=
  if m = 2 then (if isLeap y then 29 else 28)
  else if m = 4 ∨ m = 6 ∨ m = 9 ∨ m = 11 then 30
  else 31

/-- Range checks performed by Python's `datetime(year, month, day)`. -/
def validDate (dt : Date) : Bool :=
  decide (1 ≤ dt.y ∧ dt.y ≤ 9999 ∧ 1 ≤ dt.m ∧ dt.m ≤ 12 ∧
          1 ≤ dt.d ∧ dt.d ≤ daysInMonth dt.y dt.m)

/-- The `datetime` constructor: a date when the fields are in range. -/
def mkDate (y m d : Nat) : Option Date :=
  if validDate ⟨y, m, d⟩ then some ⟨y, m, d⟩ else none

/-- Lexicographic comparison of dates, Python's `datetime` order. -/
def dateLe (a b : Date) : Bool :=
  decide (a.y < b.y ∨ (a.y = b.y ∧ (a.m < b.m ∨ (a.m = b.m ∧ a.d ≤ b.d))))

def digitVal (c : Char) : Nat := c.toNat - 48

def isDigitCh (c : Char) : Bool := decide (48 ≤ c.toNat ∧ c.toNat ≤ 57)

/-- The `%Y` field of glibc `strftime`: the year printed as an unpadded
decimal number (years of `datetime` lie in 1..9999, so four branches
suffice). -/
def fmtYear (y : Nat) : Str :=
  if y < 10 then [Nat.digitChar y]
  else if y < 100 then [Nat.digitChar (y / 10), Nat.digitChar (y % 10)]
  else if y < 1000 then
    [Nat.digitChar (y / 100), Nat.digitChar (y / 10 % 10), Nat.digitChar (y % 10)]
  else [Nat.digitChar (y / 1000 % 10), Nat.digitChar (y / 100 % 10),
        Nat.digitChar (y / 10 % 10), Nat.digitChar (y % 10)]

/-- Python `dt.strftime('%Y-%m-%d')` on glibc: zero-padded month and day,
unpadded year below 1000. -/
def fmtDate (dt : Date) : Str :=
  fmtYear dt.y ++
    '-' :: Nat.digitChar (dt.m / 10 % 10) :: Nat.digitChar (dt.m % 10) ::
    '-' :: Nat.digitChar (dt.d / 10 % 10) :: Nat.digitChar (dt.d % 10) :: []

/-- Does a string have the shape `YYYY-MM-DD` (four digits, dash, two digits,
dash, two digits)? -/
def canonicalYMD : Str → Bool
  | [y1, y2, y3, y4, h1, m1, m2, h2, d1, d2] =>
    isDigitCh y1 && isDigitCh y2 && isDigitCh y3 && isDigitCh y4 &&
      h1 == '-' && isDigitCh m1 && isDigitCh m2 && h2 == '-' &&
      isDigitCh d1 && isDigitCh d2
  | _ => false

/-- Token `%Y` of `_strptime`: exactly four digits. -/
def parse4Digits : Str → Option (Nat × Str)
  | a :: b :: c :: d :: rest =>
    if isDigitCh a ∧ isDigitCh b ∧ isDigitCh c ∧ isDigitCh d then
      some (digitVal a * 1000 + digitVal b * 100 + digitVal c * 10 + digitVal d, rest)
    else none
  | _ => none

/-- Two mandatory digits (used inside `%z`). -/
def parse2Digits : Str → Option (Nat × Str)
  | a :: b :: rest =>
    if isDigitCh a ∧ isDigitCh b then some (digitVal a * 10 + digitVal b, rest)
    else none
  | _ => none

/-- Token `%m`: the regex `1[0-2]|0[1-9]|[1-9]`, alternatives in order. -/
def parseMonthTok : Str → Option (Nat × Str)
  | [] => none
  | c :: rest =>
    if c.toNat = 49 then
      match rest with
      | c2 :: rest2 =>
        if 48 ≤ c2.toNat ∧ c2.toNat ≤ 50 then some (10 + digitVal c2, rest2)
        else some (1, rest)
      | [] => some (1, [])
    else if c.toNat = 48 then
      match rest with
      | c2 :: rest2 =>
        if 49 ≤ c2.toNat ∧ c2.toNat ≤ 57 then some (digitVal c2, rest2) else none
      | [] => none
    else if 49 ≤ c.toNat ∧ c.toNat ≤ 57 then some (digitVal c, rest)
    else none

/-- Token `%d`: the regex `3[01]|[12]\d|0[1-9]|[1-9]`, alternatives in order. -/
def parseDayTok : Str → Option (Nat × Str)
  | [] => none
  | c :: rest =>
    if c.toNat = 51 then
      match rest with
      | c2 :: rest2 =>
        if c2.toNat = 48 ∨ c2.toNat = 49 then some (30 + digitVal c2, rest2)
        else some (3, rest)
      | [] => some (3, [])
    else if c.toNat = 49 ∨ c.toNat = 50 then
      match rest with
      | c2 :: rest2 =>
        if isDigitCh c2 then some (digitVal c * 10 + digitVal c2, rest2)
        else some (digitVal c, rest)
      | [] => some (digitVal c, [])
    else if c.toNat = 48 then
      match rest with
      | c2 :: rest2 =>
        if 49 ≤ c2.toNat ∧ c2.toNat ≤ 57 then some (digitVal c2, rest2) else none
      | [] => none
    else if 49 ≤ c.toNat ∧ c.toNat ≤ 57 then some (digitVal c, rest)
    else none

/-- Token `%H`: the regex `2[0-3]|[0-1]\d|\d`, alternatives in order. -/
def parseHourTok : Str → Option (Nat × Str)
  | [] => none
  | c :: rest =>
    if c.toNat = 50 then
      match rest with
      | c2 :: rest2 =>
        if 48 ≤ c2.toNat ∧ c2.toNat ≤ 51 then some (20 + digitVal c2, rest2)
        else some (2, rest)
      | [] => some (2, [])
    else if c.toNat = 48 ∨ c.toNat = 49 then
      match rest with
      | c2 :: rest2 =>
        if isDigitCh c2 then some (digitVal c * 10 + digitVal c2, rest2)
        else some (digitVal c, rest)
      | [] => some (digitVal c, [])
    else if isDigitCh c then some (digitVal c, rest)
    else none

/-- Tokens `%M` and `%S`: the regex `[0-5]\d|\d`. -/
def parseMinSecTok : Str → Option (Nat × Str)
  | [] => none
  | c :: rest =>
    if 48 ≤ c.toNat ∧ c.toNat ≤ 53 then
      match rest with
      | c2 :: rest2 =>
        if isDigitCh c2 then some (digitVal c * 10 + digitVal c2, rest2)
        else some (digitVal c, rest)
      | [] => some (digitVal c, [])
    else if isDigitCh c then some (digitVal c, rest)
    else none

/-- Strip a fixed lowercase literal, matching the input case-insensitively. -/
def stripLitCI : Str → Str → Option Str
  | [], s => some s
  | _ :: _, [] => none
  | a :: p, b :: s => if Char.toLower b = a then stripLitCI p s else none

/-- First of several lowercase literals that strips, in list order. -/
def stripAnyCI : List Str → Str → Option Str
  | [], _ => none
  | n :: ns, s =>
    match stripLitCI n s with
    | some r => some r
    | none => stripAnyCI ns s

def weekdayNames : List Str :=
  (["mon", "tue", "wed", "thu", "fri", "sat", "sun"]).map (fun s => s.data)

def monthNames : List Str :=
  (["jan", "feb", "mar", "apr", "may", "jun",
    "jul", "aug", "sep", "oct", "nov", "dec"]).map (fun s => s.data)

/-- Timezone names accepted by `%Z` regardless of locale. -/
def tzNames : List Str := (["utc", "gmt"]).map (fun s => s.data)

def parseMonthNameAux : Nat → List Str → Str → Option (Nat × Str)
  | _, [], _ => none
  | k, n :: ns, s =>
    match stripLitCI n s with
    | some r => some (k, r)
    | none => parseMonthNameAux (k + 1) ns s

/-- Token `%b`: an abbreviated month name, yielding the month number. -/
def parseMonthName (s : Str) : Option (Nat × Str) := parseMonthNameAux 1 monthNames s

/-- Literal whitespace in a format: matches one or more whitespace chars. -/
def stripWs1 : Str → Option Str
  | [] => none
  | c :: rest => if isPySpace c then some (rest.dropWhile isPySpace) else none

def expectCh (c : Char) : Str → Option Str
  | [] => none
  | b :: rest => if b = c then some rest else none

/-- Case-insensitive literal letter in a format (`re.IGNORECASE`). -/
def expectChCI (c : Char) : Str → Option Str
  | [] => none
  | b :: rest => if Char.toLower b = c then some rest else none

/-- Minute or second digits inside `%z`: the regex `[0-5]\d`. -/
def parse2DigitsMinSec : Str → Option (Nat × Str)
  | a :: b :: rest =>
    if 48 ≤ a.toNat ∧ a.toNat ≤ 53 ∧ isDigitCh b then
      some (digitVal a * 10 + digitVal b, rest)
    else none
  | _ => none

/-- Inside `%z`: an optional colon followed by two minute/second digits. -/
def parseOptColon2Digits (s : Str) : Option (Nat × Str) :=
  match s with
  | ':' :: rest => parse2DigitsMinSec rest
  | _ => parse2DigitsMinSec s

/-- Token `%z`: the regex `[+-]\d\d:?[0-5]\d(:?[0-5]\d(\.\d{1,6})?)?|(?-i:Z)`
— minutes and seconds capped at 59, the `Z` alternative case-sensitive —
with the offset-magnitude check of the `timezone` constructor; the
fractional part cannot occur here because the caller already cut the input
at the first dot. -/
def parseZoffset : Str → Option Str
  | [] => none
  | c :: rest =>
    if c = 'Z' then some rest
    else if c = '+' ∨ c = '-' then
      match parse2Digits rest with
      | none => none
      | some (hh, r1) =>
        match parseOptColon2Digits r1 with
        | none => none
        | some (mm, r2) =>
          match parseOptColon2Digits r2 with
          | some (ss, r3) =>
            if hh * 3600 + mm * 60 + ss < 86400 then some r3 else none
          | none =>
            if hh * 3600 + mm * 60 < 86400 then some r2 else none
    else none

/-- Tokens `%H:%M:%S`: time of day, returning the remaining input. -/
def parseHMS (s : Str) : Option Str :=
  (parseHourTok s).bind fun hs =>
  (expectCh ':' hs.2).bind fun s2 =>
  (parseMinSecTok s2).bind fun ms =>
  (expectCh ':' ms.2).bind fun s4 =>
  (parseMinSecTok s4).bind fun ss =>
  some ss.2

/-- Tokens `%a, %d %b %Y` of the first format: weekday name, comma,
day, month name and four-digit year, returning `(d, m, y, rest)`. -/
def parseFmt1Front (s : Str) : Option (Nat × Nat × Nat × Str) :=
  (stripAnyCI weekdayNames s).bind fun s1 =>
  (expectCh ',' s1).bind fun s2 =>
  (stripWs1 s2).bind fun s3 =>
  (parseDayTok s3).bind fun ds =>
  (stripWs1 ds.2).bind fun s5 =>
  (parseMonthName s5).bind fun ms =>
  (stripWs1 ms.2).bind fun s7 =>
  (parse4Digits s7).bind fun ys =>
  some (ds.1, ms.1, ys.1, ys.2)

/-- Format `'%a, %d %b %Y %H:%M:%S %Z'` (full-string match). -/
def parseFmt1 (s : Str) : Option Date :=
  (parseFmt1Front s).bind fun f =>
  (stripWs1 f.2.2.2).bind fun s9 =>
  (parseHMS s9).bind fun s10 =>
  (stripWs1 s10).bind fun s11 =>
  (stripAnyCI tzNames s11).bind fun s12 =>
  if s12 = [] then mkDate f.2.2.1 f.2.1 f.1 else none

/-- Format `'%Y-%m-%dT%H:%M:%S%z'` (full-string match). -/
def parseFmt2 (s : Str) : Option Date :=
  (parse4Digits s).bind fun ys =>
  (expectCh '-' ys.2).bind fun s2 =>
  (parseMonthTok s2).bind fun ms =>
  (expectCh '-' ms.2).bind fun s4 =>
  (parseDayTok s4).bind fun ds =>
  (expectChCI 't' ds.2).bind fun s6 =>
  (parseHMS s6).bind fun s7 =>
  (parseZoffset s7).bind fun s8 =>
  if s8 = [] then mkDate ys.1 ms.1 ds.1 else none

/-- Format `'%Y-%m-%d'` (full-string match); also the parse performed by
`is_recent_enough`. -/
def parseYMD (s : Str) : Option Date :=
  (parse4Digits s).bind fun ys =>
  (expectCh '-' ys.2).bind fun s2 =>
  (parseMonthTok s2).bind fun ms =>
  (expectCh '-' ms.2).bind fun s4 =>
  (parseDayTok s4).bind fun ds =>
  if ds.2 = [] then mkDate ys.1 ms.1 ds.1 else none

/-- The three formats of `parse_date`, attempted in the source's order. -/
def parseAnyFormat (s : Str) : Option Date :=
  match parseFmt1 s with
  | some dt => some dt
  | none =>
    match parseFmt2 s with
    | some dt => some dt
    | none => parseYMD s

/-- The preprocessing `date_str.split('.')[0].split('+')[0].strip()`. -/
def pyPreprocess (s : Str) : Str :=
  pyStrip (splitHead '+' (splitHead '.' s))

/-- `parse_date` of the monitor: normalise a raw feed date to `YYYY-MM-DD`,
falling back to the current processing date. -/
def parse_date (today : Date) (date_str : Str) : Str :=
  if date_str = [] then fmtDate today
  else
    match parseAnyFormat (pyPreprocess date_str) with
    | some dt => fmtDate dt
    | none => fmtDate today

/-- `is_recent_enough`: on or after January 1, 2025; unparseable input
passes (fail-open). -/
def is_recent_enough (date_string : Str) : Bool :=
  match parseYMD date_string with
  | some dt => dateLe ⟨2025, 1, 1⟩ dt
  | none => true

/-- Python's `f"{title} {description}".lower()`. -/
def combineText (title description : Str) : Str :=
  pyLower (title ++ ' ' :: description)

def finalCriticalTerms : List Str :=
  (["final rule", "adopted", "enacted", "injunction", "lawsuit",
    "court order"]).map (fun s => s.data)

def finalHighTerms : List Str :=
  (["proposed", "draft", "consultation"]).map (fun s => s.data)

/-- `categorize_priority` of the final monitor. -/
def categorize_priority (title description : Str) : Str :=
  let text := combineText title description
  if hasAny text finalCriticalTerms then "critical".data
  else if hasAny text finalHighTerms then "high".data
  else "medium".data

/-- `categorize_type` of the final monitor (record field `type`). -/
def categorize_type (title description : Str) : Str :=
  let text := combineText title description
  if strContains text ("disclosure".data) || strContains text ("reporting".data) then
    "disclosure".data
  else if strContains text ("enforcement".data) || strContains text ("lawsuit".data) then
    "enforcement".data
  else "reporting".data

/-- The `tag_map` of `extract_tags`, in insertion order. -/
def tag_map : List (Str × List Str) :=
  [("Climate".data, (["climate", "ghg", "emissions"]).map (fun s => s.data)),
   ("CSRD".data, ["csrd".data]),
   ("ISSB".data, (["issb", "ifrs"]).map (fun s => s.data)),
   ("SB 253".data, (["sb 253", "sb253"]).map (fun s => s.data)),
   ("SB 261".data, (["sb 261", "sb261"]).map (fun s => s.data)),
   ("EEOC".data, ["eeoc".data]),
   ("Discrimination".data, ["discrimination".data]),
   ("ADA".data, ["ada".data])]

/-- `extract_tags` of the final monitor: matching tags in map order,
truncated to the first five. -/
def extract_tags (title description : Str) : List Str :=
  let text := combineText title description
  ((tag_map.filter (fun p => hasAny text p.2)).map (fun p => p.1)).take 5

/-- Python's `description[:500] + ('...' if len(description) > 500 else '')`. -/
def truncate500 (description : Str) : Str :=
  description.take 500 ++ (if 500 < description.length then "...".data else [])

/-- A record of the persisted `regulations.json` collection (the final
monitor's shape); the Python dict key `type` is the field `rtype`. -/
structure Regulation where
  id : Nat
  title : Str
  category : Str
  source_category : Str
  jurisdiction : Str
  rtype : Str
  priority : Str
  date : Str
  isNew : Bool
  description : Str
  tags : List Str
  effectiveDate : Str
  source_url : Str
  source_type : Str
deriving DecidableEq, Repr

/-- A raw feed entry as the adapters read it. -/
structure FeedEntry where
  title : Str
  description : Str
  published : Str
  link : Str
deriving DecidableEq, Repr

/-- The per-source data of one `check_*` adapter of the final monitor:
its relevance predicate over the lowercased combined text, its constant
record fields, and its per-entry field functions. -/
structure AdapterSpec where
  relevant : Str → Bool
  category : Str
  source_category : Str
  jurisdiction : Str → Str
  typeOf : Str → Str → Str
  priorityOf : Str → Str → Str
  extraTags : List Str
  source_type : Str
  limit : Nat

def titles (regs : List Regulation) : List Str := regs.map (fun r => r.title)

/-- The record literal appended by an adapter for a surviving entry. -/
def mkRecord (A : AdapterSpec) (today : Date) (i : Nat) (e : FeedEntry) : Regulation :=
  { id := i
    title := e.title
    category := A.category
    source_category := A.source_category
    jurisdiction := A.jurisdiction (combineText e.title e.description)
    rtype := A.typeOf e.title e.description
    priority := A.priorityOf e.title e.description
    date := parse_date today e.published
    isNew := true
    description := truncate500 e.description
    tags := extract_tags e.title e.description ++ A.extraTags
    effectiveDate := "TBD".data
    source_url := e.link
    source_type := A.source_type }

/-- The entry loop of an adapter: relevance filter, then dedup against the
pre-run store only, then the recency filter; `k` counts the items already
collected in this adapter (`len(new_items)`). -/
def newItemsAux (A : AdapterSpec) (today : Date) (regs : List Regulation) :
    List FeedEntry → Nat → List Regulation
  | [], _ => []
  | e :: es, k =>
    if A.relevant (combineText e.title e.description) ∧
        e.title ∉ titles regs ∧
        is_recent_enough (parse_date today e.published) then
      mkRecord A today (regs.length + k + 1) e :: newItemsAux A today regs es (k + 1)
    else newItemsAux A today regs es k

/-- One `check_*` call: at most `limit` entries of the feed are scanned. -/
def checkAdapter (A : AdapterSpec) (today : Date) (regs : List Regulation)
    (entries : List FeedEntry) : List Regulation :=
  newItemsAux A today regs (entries.take A.limit) 0

/-- The `new_regulations` list accumulated by `run`: the adapters run in
order, each deduplicating against the unchanged pre-run store. -/
def runNew (today : Date) (regs : List Regulation) :
    List (AdapterSpec × List FeedEntry) → List Regulation
  | [] => []
  | p :: rest => checkAdapter p.1 today regs p.2 ++ runNew today regs rest

/-- The `reg['isNew'] = False` reset applied to every pre-run record. -/
def markOld (r : Regulation) : Regulation := { r with isNew := false }

/-- Outcome of one `run()`: the new records, the final in-memory
collection, and the content of `regulations.json` after the run. -/
structure RunResult where
  newRegs : List Regulation
  memRegs : List Regulation
  fileRegs : List Regulation

/-- `run()` of the final monitor: collect new records from all adapters
against the pre-run store, reset `isNew` on the old records, and save the
merged collection — but only when at least one new record was found. -/
def runMonitor (today : Date) (adapters : List (AdapterSpec × List FeedEntry))
    (file0 : List Regulation) : RunResult :=
  let new := runNew today file0 adapters
  let mem := file0.map markOld ++ new
  { newRegs := new, memRegs := mem, fileRegs := if new = [] then file0 else mem }

/-- How many records of the collection carry exactly the given title. -/
def countTitle (t : Str) (regs : List Regulation) : Nat :=
  (regs.filter (fun r => decide (r.title = t))).length

def secRelevantTerms : List Str :=
  (["climate", "esg", "sustainability", "greenhouse", "emissions",
    "disclosure"]).map (fun s => s.data)

/-- `check_sec_official` of the final monitor. -/
def secOfficialSpec : AdapterSpec :=
  { relevant := fun combined => hasAny combined secRelevantTerms
    category := "environmental".data
    source_category := "sec-official".data
    jurisdiction := fun _ => "sec".data
    typeOf := categorize_type
    priorityOf := categorize_priority
    extraTags := []
    source_type := "SEC Official".data
    limit := 20 }

def reutersEnvClimateTerms : List Str :=
  (["climate", "esg", "sustainability", "greenhouse", "emissions",
    "sb 253", "sb 261", "csrd", "greenwashing"]).map (fun s => s.data)

def reutersEnvEnforcementTerms : List Str :=
  (["lawsuit", "sues", "sued", "court", "judge", "injunction",
    "blocks", "ruling", "settlement"]).map (fun s => s.data)

def reutersEnvJunkTerms : List Str :=
  (["what companies should know", "what employers should know",
    "guide to", "how to", "countdown to"]).map (fun s => s.data)

/-- `check_reuters_environmental` of the final monitor. -/
def reutersEnvSpec : AdapterSpec :=
  { relevant := fun combined =>
      hasAny combined reutersEnvClimateTerms &&
        hasAny combined reutersEnvEnforcementTerms &&
        ! hasAny combined reutersEnvJunkTerms
    category := "environmental".data
    source_category := "reuters-enforcement".data
    jurisdiction := fun combined =>
      if strContains combined ("sb 2".data) then "california".data
      else "international".data
    typeOf := fun _ _ => "enforcement".data
    priorityOf := fun _ _ => "critical".data
    extraTags := ["Reuters".data]
    source_type := "Reuters Legal".data
    limit := 20 }

def reutersSocialSocialTerms : List Str :=
  (["eeoc", "discrimination", "diversity", "ada", "accessibility",
    "pay equity", "harassment", "fcc", "equal employment"]).map (fun s => s.data)

def reutersSocialEnforcementTerms : List Str :=
  (["lawsuit", "sues", "sued", "investigation", "investigates",
    "settlement", "court", "judge", "ruling", "files lawsuit",
    "eeoc files", "fcc probes", "consent decree"]).map (fun s => s.data)

def reutersSocialJunkTerms : List Str :=
  (["what employers should know", "what companies should know",
    "guide to", "how to", "countdown to", "day 1",
    "laboremploymentlawblog", "sheppard, mullin"]).map (fun s => s.data)

/-- `check_reuters_social` of the final monitor. -/
def reutersSocialSpec : AdapterSpec :=
  { relevant := fun combined =>
      hasAny combined reutersSocialSocialTerms &&
        hasAny combined reutersSocialEnforcementTerms &&
        ! hasAny combined reutersSocialJunkTerms
    category := "social".data
    source_category := "reuters-enforcement".data
    jurisdiction := fun _ => "federal".data
    typeOf := fun _ _ => "enforcement".data
    priorityOf := fun _ _ => "high".data
    extraTags := ["Reuters".data]
    source_type := "Reuters Legal".data
    limit := 20 }

/-- The exclusion phrase list of `is_esg_related` in
`src/esg-regulations-monitor.py`, in source order. -/
def rm_exclusions : List Str :=
  (["personnel", "appointment", "joins", "rejoins", "named", "promoted",
    "school bus", "electric vehicle", "ev charging",
    "fraud", "accounting fraud", "misleading", "settlement payment", "charges against",
    "biodiesel", "renewable fuel",
    "harvard law", "yale law", "stanford law", "columbia law", "law school", "law program",
    "environmental and energy law program", "certificate program", "continuing education",
    "investors concerned", "study shows", "survey finds", "report reveals",
    "companies struggle", "will reduce", "may impact", "could affect",
    "efrag study", "new research", "analysis shows", "experts say",
    "calls for", "demands", "urges", "recommends",
    "what is", "what are", "understanding", "explained", "explained:",
    "primer on", "introduction to", "basics of", "overview of",
    "everything you need to know", "complete guide", "beginner\x27s guide",
    "webinar", "podcast", "episode", "what employers need to know",
    "guide to", "how to", "what to do", "prepare for", "navigating",
    "back-to-school", "employer obligations", "compliance considerations",
    "what to know", "here\x27s what", "growing concerned", "investors prioritize",
    "pressure leads to", "creating confusion", "emerging divergence",
    "what it means for employers", "implications for employers",
    "key takeaways for", "employers should know", "practical guidance",
    "client alert", "legal update:", "advisory:",
    "time magazine", "governing", "inquirer", "business wire", "hr dive",
    "hr digest", "business journals", "technical.ly", "the conversation",
    "esg today", "esg news", "sustainability magazine",
    "are board diversity mandates legal", "employers can prepare",
    "use new pay transparency laws", "became the epicenter"]).map (fun s => s.data)

/-- The strong-regulatory-term list of `is_esg_related` in
`src/esg-regulations-monitor.py`. -/
def rm_strongRegulatory : List Str :=
  (["final rule", "proposed rule", "regulation", "sec adopts", "sec proposes",
    "sec finalizes", "epa adopts", "epa finalizes",
    "csrd", "issb", "tcfd", "sb 253", "sb 261", "esrs",
    "eeoc settlement", "consent decree", "doj announces", "sec charges",
    "court ruling", "injunction", "federal register", "judge blocks",
    "blocks enforcement", "halts", "stays", "overturns", "suspends",
    "bill passed", "law enacted", "legislation", "statute",
    "guidance issued", "directive", "mandate issued",
    "requirement published", "standard issued"]).map (fun s => s.data)

/-- The `ESG_KEYWORDS` inclusion list of `src/esg-regulations-monitor.py`. -/
def rm_ESG_KEYWORDS : List Str :=
  (["climate disclosure", "climate-related disclosure", "climate risk disclosure",
    "greenhouse gas disclosure", "ghg disclosure", "emissions disclosure",
    "scope 1 disclosure", "scope 2 disclosure", "scope 3 disclosure",
    "sustainability disclosure", "esg disclosure", "sustainability reporting",
    "climate reporting", "emissions reporting",
    "csrd", "esrs", "corporate sustainability reporting directive",
    "eu taxonomy", "sfdr", "sustainable finance disclosure",
    "tcfd", "task force climate", "issb", "ifrs s1", "ifrs s2",
    "sdr", "sustainability disclosure requirements",
    "sb 253", "sb 261", "senate bill 253", "senate bill 261",
    "climate rule", "climate regulation", "sustainability rule",
    "net zero disclosure", "transition plan disclosure",
    "carbon disclosure", "climate law"]).map (fun s => s.data)

/-- `is_esg_related` of `src/esg-regulations-monitor.py`: the two-tier
exclusion gate followed by the inclusion-keyword check. -/
def rm_is_esg_related (text : Str) : Bool :=
  let text_lower := pyLower text
  if hasAny text_lower rm_exclusions && ! hasAny text_lower rm_strongRegulatory then
    false
  else hasAny text_lower rm_ESG_KEYWORDS

/-- The `ESG_KEYWORDS` list of `src/esg_monitor.py`. -/
def em_ESG_KEYWORDS : List Str :=
  (["climate", "esg", "sustainability", "disclosure", "greenhouse", "emissions",
    "csrd", "taxonomy", "sfdr", "carbon", "environmental", "social", "governance",
    "tcfd", "scope 1", "scope 2", "scope 3", "net zero", "transition plan",
    "sb 253", "sb 261", "sb253", "sb261", "senate bill 253", "senate bill 261",
    "climate corporate data accountability", "climate-related financial risk",
    "corporate sustainability reporting directive", "esrs",
    "european sustainability reporting", "csrd implementation", "double materiality",
    "task force on climate-related financial disclosures", "tcfd framework",
    "tcfd recommendations", "tcfd alignment",
    "issb", "ifrs s1", "ifrs s2", "sustainability disclosure standards",
    "international sustainability standards board", "ifrs foundation",
    "sustainability disclosure requirements", "sdr", "fca sustainability",
    "canada climate disclosure", "canadian securities administrators", "csa climate",
    "nі 51-107", "ni 58-101",
    "singapore climate disclosure", "hong kong climate", "japan tcfd",
    "korea esg", "china esg disclosure", "asean taxonomy",
    "mas climate", "hkex esg", "issb adoption asia"]).map (fun s => s.data)

/-- `is_esg_related` of `src/esg_monitor.py`: inclusion keywords only. -/
def em_is_esg_related (text : Str) : Bool :=
  hasAny (pyLower text) em_ESG_KEYWORDS

def em_criticalTerms : List Str :=
  (["required", "mandatory", "final rule", "enforcement", "deadline"]).map (fun s => s.data)

def em_highTerms : List Str :=
  (["proposed", "amendment", "update", "new requirement"]).map (fun s => s.data)

/-- `categorize_priority` of `src/esg_monitor.py`. -/
def em_categorize_priority (title description : Str) : Str :=
  let text := combineText title description
  if hasAny text em_criticalTerms then "critical".data
  else if hasAny text em_highTerms then "high".data
  else "medium".data

/-- `categorize_type` of `src/esg_monitor.py`. -/
def em_categorize_type (title description : Str) : Str :=
  let text := combineText title description
  if strContains text ("disclosure".data) || strContains text ("reporting".data) then
    "disclosure".data
  else if strContains text ("taxonomy".data) || strContains text ("classification".data) then
    "taxonomy".data
  else if strContains text ("enforcement".data) || strContains text ("penalty".data) then
    "enforcement".data
  else "reporting".data

/-- The `tag_patterns` of `src/esg_monitor.py`, in insertion order. -/
def em_tag_patterns : List (Str × List Str) :=
  [("Climate".data, (["climate", "greenhouse", "emissions", "carbon"]).map (fun s => s.data)),
   ("GHG Emissions".data,
    (["ghg", "greenhouse gas", "scope 1", "scope 2", "scope 3"]).map (fun s => s.data)),
   ("Disclosure".data, (["disclosure", "reporting requirement"]).map (fun s => s.data)),
   ("Supply Chain".data,
    (["supply chain", "value chain", "upstream", "downstream"]).map (fun s => s.data)),
   ("TCFD".data, (["tcfd", "task force"]).map (fun s => s.data)),
   ("Taxonomy".data, (["taxonomy", "classification"]).map (fun s => s.data)),
   ("Due Diligence".data, (["due diligence", "human rights"]).map (fun s => s.data)),
   ("Annual Reports".data, (["annual report", "10-k", "form 10-k"]).map (fun s => s.data)),
   ("CSRD".data, (["csrd", "corporate sustainability reporting"]).map (fun s => s.data)),
   ("ESRS".data, (["esrs", "sustainability reporting standard"]).map (fun s => s.data))]

/-- `extract_tags` of `src/esg_monitor.py`. -/
def em_extract_tags (title description : Str) : List Str :=
  let text := combineText title description
  ((em_tag_patterns.filter (fun p => hasAny text p.2)).map (fun p => p.1)).take 5

/-- A record as built by `check_sec_feed` of `src/esg_monitor.py` (this
variant has no `category`/`source_category` fields). -/
structure EmRegulation where
  id : Nat
  title : Str
  jurisdiction : Str
  rtype : Str
  priority : Str
  date : Str
  isNew : Bool
  description : Str
  tags : List Str
  effectiveDate : Str
  source_url : Str
  source_type : Str
deriving DecidableEq, Repr

def em_titles (regs : List EmRegulation) : List Str := regs.map (fun r => r.title)

/-- The record literal appended by `check_sec_feed` of `src/esg_monitor.py`. -/
def em_mkRecord (today : Date) (i : Nat) (sourceType : Str) (e : FeedEntry) : EmRegulation :=
  { id := i
    title := e.title
    jurisdiction := "sec".data
    rtype := em_categorize_type e.title e.description
    priority := em_categorize_priority e.title e.description
    date := parse_date today e.published
    isNew := true
    description := truncate500 e.description
    tags := em_extract_tags e.title e.description
    effectiveDate := "TBD".data
    source_url := e.link
    source_type := sourceType }

/-- The entry loop of `check_sec_feed` in `src/esg_monitor.py`: relevance
and dedup only — this adapter applies no recency filter. -/
def em_newItemsAux (today : Date) (regs : List EmRegulation) (sourceType : Str) :
    List FeedEntry → Nat → List EmRegulation
  | [], _ => []
  | e :: es, k =>
    if em_is_esg_related (e.title ++ ' ' :: e.description) ∧
        e.title ∉ em_titles regs then
      em_mkRecord today (regs.length + k + 1) sourceType e ::
        em_newItemsAux today regs sourceType es (k + 1)
    else em_newItemsAux today regs sourceType es k

/-- `check_sec_feed` of `src/esg_monitor.py`: two feeds, at most 20 entries
each, one accumulating `new_items` list. -/
def em_check_sec_feed (today : Date) (regs : List EmRegulation)
    (prEntries newsEntries : List FeedEntry) : List EmRegulation :=
  let first := em_newItemsAux today regs ("Press Release".data) (prEntries.take 20) 0
  first ++ em_newItemsAux today regs ("News".data) (newsEntries.take 20) first.length

def specCriticalTerms : List Str :=
  (["final rule", "adopted", "injunction", "lawsuit"]).map (fun s => s.data)

def specHighTerms : List Str :=
  (["proposed", "draft", "consultation"]).map (fun s => s.data)

/-- Modelled from the spec's words, for comparison with the code's
`categorize_priority`: the priority policy exactly as the specification
states it, with only the four listed finality terms and the three listed
process terms. -/
def specPriority (title description : Str) : Str :=
  let text := combineText title description
  if hasAny text specCriticalTerms then "critical".data
  else if hasAny text specHighTerms then "high".data
  else "medium".data

/-- A fixed processing date used by the concrete scenarios. -/
def today0 : Date := ⟨2026, 10, 12⟩

/-- A record already present in the store before a run. -/
def rec0 : Regulation :=
  { id := 1
    title := "Climate update 2025".data
    category := "environmental".data
    source_category := "sec-official".data
    jurisdiction := "sec".data
    rtype := "reporting".data
    priority := "medium".data
    date := "2025-05-01".data
    isNew := true
    description := []
    tags := []
    effectiveDate := "TBD".data
    source_url := []
    source_type := "SEC Official".data }

/-- A candidate feed entry whose title equals the stored record's title. -/
def eDup : FeedEntry :=
  { title := "Climate update 2025".data
    description := []
    published := "2025-06-01".data
    link := [] }

/-- A relevant, fresh SEC feed entry. -/
def eSec : FeedEntry :=
  { title := "Climate disclosure final rule".data
    description := []
    published := "2025-06-01".data
    link := [] }

/-- An entry matching the relevance filters of both Reuters adapters,
which read the same feed. -/
def eReuters : FeedEntry :=
  { title := "EEOC climate discrimination lawsuit ruling".data
    description := []
    published := "2025-06-01".data
    link := [] }

/-- A Reuters entry matching six tag groups of `tag_map`. -/
def eTags : FeedEntry :=
  { title := "Climate lawsuit over CSRD ISSB EEOC ADA SB 253".data
    description := []
    published := "2025-06-01".data
    link := [] }

/-- An ESG-relevant SEC entry dated before the 2025 cutoff. -/
def emOld : FeedEntry :=
  { title := "Climate disclosure update".data
    description := []
    published := "2024-03-05".data
    link := [] }

/-- A commentary entry carrying the exclusion phrase. -/
def junkEntry : FeedEntry :=
  { title := "EEOC lawsuit: what employers should know".data
    description := []
    published := "2025-06-01".data
    link := [] }

/-- An ESG-relevant SEC entry dated in year 333: its normalized date is
stored unpadded and no longer reparses as `YYYY-MM-DD`. -/
def eAncient : FeedEntry :=
  { title := "Climate disclosure notice".data
    description := []
    published := "0333-01-01".data
    link := [] }

theorem leadsWith_append {n a : Str} (b : Str) (h : leadsWith n a = true) :
    leadsWith n (a ++ b) = true := by
  induction n generalizing a with
  | nil => simp [leadsWith]
  | cons c n ih =>
    cases a with
    | nil => simp [leadsWith] at h
    | cons x a =>
      simp only [leadsWith, Bool.and_eq_true, beq_iff_eq] at h
      simp only [List.cons_append, leadsWith, Bool.and_eq_true, beq_iff_eq]
      exact ⟨h.1, ih h.2⟩

theorem leadsWith_self_append (n b : Str) : leadsWith n (n ++ b) = true := by
  induction n with
  | nil => simp [leadsWith]
  | cons c n ih => simp [leadsWith, ih]

theorem leadsWith_decomp : ∀ {n h : Str}, leadsWith n h = true → ∃ s, h = n ++ s := by
  intro n
  induction n with
  | nil => exact fun {h} _ => ⟨h, rfl⟩
  | cons c n ih =>
    intro h hl
    cases h with
    | nil => simp [leadsWith] at hl
    | cons x t =>
      simp only [leadsWith, Bool.and_eq_true, beq_iff_eq] at hl
      obtain ⟨s, hs⟩ := ih hl.2
      exact ⟨s, by simp [hs, hl.1]⟩

theorem strContains_nil (h : Str) : strContains h [] = true := by
  cases h with
  | nil => rfl
  | cons c t => simp [strContains, leadsWith]

theorem strContains_cons {t n : Str} (c : Char) (h : strContains t n = true) :
    strContains (c :: t) n = true := by
  simp [strContains, h]

theorem strContains_append_right (a : Str) {h n : Str} (hc : strContains h n = true) :
    strContains (a ++ h) n = true := by
  induction a with
  | nil => exact hc
  | cons c t ih => exact strContains_cons c ih

theorem strContains_append_left : ∀ {a : Str} (b : Str) {n : Str},
    strContains a n = true → strContains (a ++ b) n = true := by
  intro a
  induction a with
  | nil =>
    intro b n h
    cases n with
    | nil => exact strContains_nil b
    | cons x m => simp [strContains] at h
  | cons c t ih =>
    intro b n h
    rw [strContains, Bool.or_eq_true] at h
    rcases h with h1 | h2
    · show strContains (c :: (t ++ b)) n = true
      rw [strContains, Bool.or_eq_true]
      exact Or.inl (leadsWith_append b h1)
    · exact strContains_cons c (ih b h2)

theorem strContains_decomp : ∀ {h n : Str}, strContains h n = true →
    ∃ p s, h = p ++ (n ++ s) := by
  intro h
  induction h with
  | nil =>
    intro n hc
    cases n with
    | nil => exact ⟨[], [], rfl⟩
    | cons x m => simp [strContains] at hc
  | cons c t ih =>
    intro n hc
    rw [strContains, Bool.or_eq_true] at hc
    rcases hc with h1 | h2
    · obtain ⟨s, hs⟩ := leadsWith_decomp h1
      exact ⟨[], s, by simp [hs]⟩
    · obtain ⟨p, s, hp⟩ := ih h2
      exact ⟨c :: p, s, by simp [hp]⟩

theorem strContains_trans {h n m : Str} (h1 : strContains h n = true)
    (h2 : strContains n m = true) : strContains h m = true := by
  obtain ⟨p, s, hp⟩ := strContains_decomp h1
  rw [hp]
  exact strContains_append_right p (strContains_append_left s h2)

theorem hasAny_of_mem {text kw : Str} {kws : List Str} (hm : kw ∈ kws)
    (hc : strContains text kw = true) : hasAny text kws = true := by
  simp only [hasAny, List.any_eq_true]
  exact ⟨kw, hm, hc⟩

theorem pyLower_append (a b : Str) : pyLower (a ++ b) = pyLower a ++ pyLower b := by
  simp [pyLower]

theorem combineText_eq (t d : Str) :
    combineText t d = pyLower t ++ (' ' :: pyLower d) := by
  have hsp : Char.toLower ' ' = ' ' := rfl
  simp [combineText, pyLower, hsp]

theorem digitChar_spec : ∀ k, k < 10 →
    isDigitCh (Nat.digitChar k) = true ∧ digitVal (Nat.digitChar k) = k := by decide

theorem mkDate_valid : ∀ {y m d : Nat} {dt : Date},
    mkDate y m d = some dt → validDate dt = true := by
  intro y m d dt h
  unfold mkDate at h
  split at h
  · cases h; assumption
  · exact Option.noConfusion h

theorem validDate_bounds {dt : Date} (h : validDate dt = true) :
    1 ≤ dt.y ∧ dt.y ≤ 9999 ∧ 1 ≤ dt.m ∧ dt.m ≤ 12 ∧
      1 ≤ dt.d ∧ dt.d ≤ daysInMonth dt.y dt.m := by
  simpa [validDate] using h

theorem daysInMonth_le (y m : Nat) : daysInMonth y m ≤ 31 := by
  unfold daysInMonth
  split_ifs <;> omega

theorem parseFmt1_valid {s : Str} {dt : Date} (h : parseFmt1 s = some dt) :
    validDate dt = true := by
  simp only [parseFmt1, Option.bind_eq_some] at h
  obtain ⟨f, -, s9, -, s10, -, s11, -, s12, -, hfin⟩ := h
  split at hfin
  · exact mkDate_valid hfin
  · exact Option.noConfusion hfin

theorem parseFmt2_valid {s : Str} {dt : Date} (h : parseFmt2 s = some dt) :
    validDate dt = true := by
  simp only [parseFmt2, Option.bind_eq_some] at h
  obtain ⟨ys, -, s2, -, ms, -, s4, -, ds, -, s6, -, s7, -, s8, -, hfin⟩ := h
  split at hfin
  · exact mkDate_valid hfin
  · exact Option.noConfusion hfin

theorem parseYMD_valid {s : Str} {dt : Date} (h : parseYMD s = some dt) :
    validDate dt = true := by
  simp only [parseYMD, Option.bind_eq_some] at h
  obtain ⟨ys, -, s2, -, ms, -, s4, -, ds, -, hfin⟩ := h
  split at hfin
  · exact mkDate_valid hfin
  · exact Option.noConfusion hfin

theorem parseAnyFormat_valid {s : Str} {dt : Date} (h : parseAnyFormat s = some dt) :
    validDate dt = true := by
  unfold parseAnyFormat at h
  cases h1 : parseFmt1 s with
  | some d1 =>
    rw [h1] at h
    simp only [] at h
    cases h
    exact parseFmt1_valid h1
  | none =>
    rw [h1] at h
    simp only [] at h
    cases h2 : parseFmt2 s with
    | some d2 =>
      rw [h2] at h
      simp only [] at h
      cases h
      exact parseFmt2_valid h2
    | none =>
      rw [h2] at h
      simp only [] at h
      exact parseYMD_valid h

theorem parseMonthTok_pad (m : Nat) (h1 : 1 ≤ m) (h2 : m ≤ 12) (rest : Str) :
    parseMonthTok (Nat.digitChar (m / 10 % 10) :: Nat.digitChar (m % 10) :: rest)
      = some (m, rest) := by
  interval_cases m <;> rfl

theorem parseDayTok_pad (d : Nat) (h1 : 1 ≤ d) (h2 : d ≤ 31) (rest : Str) :
    parseDayTok (Nat.digitChar (d / 10 % 10) :: Nat.digitChar (d % 10) :: rest)
      = some (d, rest) := by
  interval_cases d <;> rfl

theorem expectCh_self (c : Char) (rest : Str) : expectCh c (c :: rest) = some rest := by
  simp [expectCh]

theorem parse4Digits_pad (y : Nat) (hy : y ≤ 9999) (rest : Str) :
    parse4Digits (Nat.digitChar (y / 1000 % 10) :: Nat.digitChar (y / 100 % 10) ::
      Nat.digitChar (y / 10 % 10) :: Nat.digitChar (y % 10) :: rest) = some (y, rest) := by
  have d1 := digitChar_spec _ (Nat.mod_lt (y / 1000) (by omega))
  have d2 := digitChar_spec _ (Nat.mod_lt (y / 100) (by omega))
  have d3 := digitChar_spec _ (Nat.mod_lt (y / 10) (by omega))
  have d4 := digitChar_spec _ (Nat.mod_lt y (by omega))
  rw [parse4Digits, if_pos ⟨d1.1, d2.1, d3.1, d4.1⟩, d1.2, d2.2, d3.2, d4.2,
    show y / 1000 % 10 * 1000 + y / 100 % 10 * 100 + y / 10 % 10 * 10 + y % 10 = y by omega]

theorem fmtYear_ge1000 {y : Nat} (hy : 1000 ≤ y) :
    fmtYear y = [Nat.digitChar (y / 1000 % 10), Nat.digitChar (y / 100 % 10),
      Nat.digitChar (y / 10 % 10), Nat.digitChar (y % 10)] := by
  unfold fmtYear
  rw [if_neg (by omega), if_neg (by omega), if_neg (by omega)]

theorem fmtDate_ge1000 {dt : Date} (hy : 1000 ≤ dt.y) :
    fmtDate dt = Nat.digitChar (dt.y / 1000 % 10) :: Nat.digitChar (dt.y / 100 % 10) ::
      Nat.digitChar (dt.y / 10 % 10) :: Nat.digitChar (dt.y % 10) :: '-' ::
      Nat.digitChar (dt.m / 10 % 10) :: Nat.digitChar (dt.m % 10) :: '-' ::
      Nat.digitChar (dt.d / 10 % 10) :: Nat.digitChar (dt.d % 10) :: [] := by
  unfold fmtDate
  rw [fmtYear_ge1000 hy]
  rfl

theorem parseYMD_fmtDate {dt : Date} (h : validDate dt = true) (hy : 1000 ≤ dt.y) :
    parseYMD (fmtDate dt) = some dt := by
  obtain ⟨hy1, hy2, hm1, hm2, hd1, hd2⟩ := validDate_bounds h
  have hd31 : dt.d ≤ 31 := le_trans hd2 (daysInMonth_le dt.y dt.m)
  rw [fmtDate_ge1000 hy]
  simp only [parseYMD, parse4Digits_pad dt.y hy2, Option.some_bind,
    expectCh_self, parseMonthTok_pad dt.m hm1 hm2, parseDayTok_pad dt.d hd1 hd31]
  rw [if_pos trivial]
  unfold mkDate
  rw [if_pos h]

theorem canonicalYMD_fmtDate {dt : Date} (hy : 1000 ≤ dt.y) :
    canonicalYMD (fmtDate dt) = true := by
  have l : ∀ k : Nat, isDigitCh (Nat.digitChar (k % 10)) = true :=
    fun k => (digitChar_spec _ (Nat.mod_lt k (by omega))).1
  rw [fmtDate_ge1000 hy]
  simp [canonicalYMD, l]

theorem parse_date_shape (today : Date) (h : validDate today = true) (s : Str) :
    ∃ dt, parse_date today s = fmtDate dt ∧ validDate dt = true := by
  unfold parse_date
  by_cases hs : s = []
  · rw [if_pos hs]
    exact ⟨today, rfl, h⟩
  · rw [if_neg hs]
    cases hp : parseAnyFormat (pyPreprocess s) with
    | some dt =>
      refine ⟨dt, ?_, parseAnyFormat_valid hp⟩
      simp [hp]
    | none =>
      refine ⟨today, ?_, h⟩
      simp [hp]

theorem parse_date_shape_canonical (today : Date) (h : validDate today = true)
    (s : Str) :
    ∃ dt : Date, parse_date today s = fmtDate dt ∧ validDate dt = true ∧
      (1000 ≤ dt.y → canonicalYMD (parse_date today s) = true) := by
  obtain ⟨dt, heq, hval⟩ := parse_date_shape today h s
  refine ⟨dt, heq, hval, fun hy => ?_⟩
  rw [heq]
  exact canonicalYMD_fmtDate hy

theorem parse_date_fallback (today : Date) (s : Str)
    (h : parseAnyFormat (pyPreprocess s) = none) :
    parse_date today s = fmtDate today := by
  unfold parse_date
  by_cases hs : s = []
  · rw [if_pos hs]
  · rw [if_neg hs]
    simp [h]

theorem is_recent_fmtDate {dt : Date} (h : validDate dt = true) (hy : 1000 ≤ dt.y) :
    is_recent_enough (fmtDate dt) = dateLe ⟨2025, 1, 1⟩ dt := by
  unfold is_recent_enough
  rw [parseYMD_fmtDate h hy]

theorem titles_cons (r : Regulation) (l : List Regulation) :
    titles (r :: l) = r.title :: titles l := rfl

theorem titles_append (a b : List Regulation) :
    titles (a ++ b) = titles a ++ titles b := by
  simp [titles]

theorem titles_markOld (l : List Regulation) : titles (l.map markOld) = titles l := by
  simp only [titles, List.map_map]
  rfl

theorem mem_newItemsAux {A : AdapterSpec} {today : Date} {regs : List Regulation} :
    ∀ {es : List FeedEntry} {k : Nat} {r : Regulation}, r ∈ newItemsAux A today regs es k →
    ∃ e i, r = mkRecord A today i e ∧
      A.relevant (combineText e.title e.description) = true ∧
      e.title ∉ titles regs ∧
      is_recent_enough (parse_date today e.published) = true := by
  intro es
  induction es with
  | nil => intro k r h; exact absurd h (List.not_mem_nil r)
  | cons e es ih =>
    intro k r h
    rw [newItemsAux] at h
    split at h
    next hc =>
      rcases List.mem_cons.mp h with h1 | h2
      · exact ⟨e, regs.length + k + 1, h1, hc.1, hc.2.1, hc.2.2⟩
      · exact ih h2
    next hc => exact ih h

theorem title_mem_newItemsAux {A : AdapterSpec} {today : Date} {regs : List Regulation} :
    ∀ {es : List FeedEntry} (k : Nat) {e : FeedEntry}, e ∈ es →
    A.relevant (combineText e.title e.description) = true →
    is_recent_enough (parse_date today e.published) = true →
    e.title ∉ titles regs →
    e.title ∈ titles (newItemsAux A today regs es k) := by
  intro es
  induction es with
  | nil => intro k e h; exact absurd h (List.not_mem_nil e)
  | cons a es ih =>
    intro k e hmem hrel hrec hnot
    rw [newItemsAux]
    rcases List.mem_cons.mp hmem with h1 | h2
    · subst h1
      rw [if_pos ⟨hrel, hnot, hrec⟩]
      exact List.mem_cons_self _ _
    · by_cases hc : A.relevant (combineText a.title a.description) ∧
          a.title ∉ titles regs ∧ is_recent_enough (parse_date today a.published)
      · rw [if_pos hc]
        exact List.mem_cons_of_mem _ (ih (k + 1) h2 hrel hrec hnot)
      · rw [if_neg hc]
        exact ih k h2 hrel hrec hnot

theorem newItemsAux_eq_nil {A : AdapterSpec} {today : Date} {regs' : List Regulation} :
    ∀ (es : List FeedEntry) (k : Nat),
    (∀ e ∈ es, A.relevant (combineText e.title e.description) = true →
        is_recent_enough (parse_date today e.published) = true →
        e.title ∈ titles regs') →
    newItemsAux A today regs' es k = [] := by
  intro es
  induction es with
  | nil => intro k _; rfl
  | cons e es ih =>
    intro k H
    rw [newItemsAux, if_neg]
    · exact ih k fun x hx => H x (List.mem_cons_of_mem _ hx)
    · rintro ⟨h1, h2, h3⟩
      exact h2 (H e (List.mem_cons_self _ _) h1 h3)

theorem mem_runNew {today : Date} {regs : List Regulation} :
    ∀ {adapters : List (AdapterSpec × List FeedEntry)} {r : Regulation},
    r ∈ runNew today regs adapters →
    ∃ A e i, r = mkRecord A today i e ∧ e.title ∉ titles regs := by
  intro adapters
  induction adapters with
  | nil => intro r h; exact absurd h (List.not_mem_nil r)
  | cons p rest ih =>
    intro r h
    rw [runNew] at h
    rcases List.mem_append.mp h with h1 | h2
    · obtain ⟨e, i, hr, -, hnot, -⟩ := mem_newItemsAux h1
      exact ⟨p.1, e, i, hr, hnot⟩
    · exact ih h2

theorem checkAdapter_sub_runNew {today : Date} {regs : List Regulation} :
    ∀ {adapters : List (AdapterSpec × List FeedEntry)}
      {p : AdapterSpec × List FeedEntry}, p ∈ adapters →
    ∀ {x : Regulation}, x ∈ checkAdapter p.1 today regs p.2 →
      x ∈ runNew today regs adapters := by
  intro adapters
  induction adapters with
  | nil => intro p h; exact absurd h (List.not_mem_nil p)
  | cons q rest ih =>
    intro p h x hx
    rw [runNew]
    rcases List.mem_cons.mp h with h1 | h2
    · subst h1
      exact List.mem_append_left _ hx
    · exact List.mem_append_right _ (ih h2 hx)

theorem runMonitor_fileRegs (today : Date) (adapters : List (AdapterSpec × List FeedEntry))
    (file0 : List Regulation) :
    (runMonitor today adapters file0).fileRegs =
      if runNew today file0 adapters = [] then file0
      else file0.map markOld ++ runNew today file0 adapters := rfl

theorem mem_titles_fileRegs_of_file0 {today : Date}
    {adapters : List (AdapterSpec × List FeedEntry)} {file0 : List Regulation} {t : Str}
    (h : t ∈ titles file0) : t ∈ titles (runMonitor today adapters file0).fileRegs := by
  rw [runMonitor_fileRegs]
  by_cases hn : runNew today file0 adapters = []
  · rw [if_pos hn]
    exact h
  · rw [if_neg hn, titles_append, titles_markOld]
    exact List.mem_append_left _ h

theorem mem_titles_fileRegs_of_new {today : Date}
    {adapters : List (AdapterSpec × List FeedEntry)} {file0 : List Regulation}
    {x : Regulation} (h : x ∈ runNew today file0 adapters) :
    x.title ∈ titles (runMonitor today adapters file0).fileRegs := by
  rw [runMonitor_fileRegs, if_neg (List.ne_nil_of_mem h), titles_append, titles_markOld]
  exact List.mem_append_right _ (List.mem_map_of_mem _ h)

theorem runNew_eq_nil {today : Date} {regs' : List Regulation} :
    ∀ (adapters : List (AdapterSpec × List FeedEntry)),
    (∀ p ∈ adapters, ∀ e ∈ p.2.take p.1.limit,
        p.1.relevant (combineText e.title e.description) = true →
        is_recent_enough (parse_date today e.published) = true →
        e.title ∈ titles regs') →
    runNew today regs' adapters = [] := by
  intro adapters
  induction adapters with
  | nil => intro _; rfl
  | cons p rest ih =>
    intro H
    rw [runNew,
      show checkAdapter p.1 today regs' p.2 = [] from
        newItemsAux_eq_nil _ 0 (H p (List.mem_cons_self _ _)),
      ih fun q hq => H q (List.mem_cons_of_mem _ hq)]
    rfl

theorem run2_covered (today : Date) (adapters : List (AdapterSpec × List FeedEntry))
    (file0 : List Regulation) :
    ∀ p ∈ adapters, ∀ e ∈ p.2.take p.1.limit,
      p.1.relevant (combineText e.title e.description) = true →
      is_recent_enough (parse_date today e.published) = true →
      e.title ∈ titles (runMonitor today adapters file0).fileRegs := by
  intro p hp e he hrel hrec
  by_cases h0 : e.title ∈ titles file0
  · exact mem_titles_fileRegs_of_file0 h0
  · have hmem := title_mem_newItemsAux 0 he hrel hrec h0
    obtain ⟨x, hx, hxt⟩ := List.mem_map.mp hmem
    have hxr : x ∈ runNew today file0 adapters := checkAdapter_sub_runNew hp hx
    rw [← hxt]
    exact mem_titles_fileRegs_of_new hxr

theorem run_idem_core (today : Date) (adapters : List (AdapterSpec × List FeedEntry))
    (file0 : List Regulation) :
    runNew today (runMonitor today adapters file0).fileRegs adapters = [] :=
  runNew_eq_nil adapters (run2_covered today adapters file0)

theorem countTitle_cons (t : Str) (r : Regulation) (l : List Regulation) :
    countTitle t (r :: l) = (if r.title = t then 1 else 0) + countTitle t l := by
  unfold countTitle
  rw [List.filter_cons]
  by_cases h : r.title = t
  · simp [h, Nat.add_comm]
  · simp [h]

theorem countTitle_markOld (t : Str) : ∀ (l : List Regulation),
    countTitle t (l.map markOld) = countTitle t l := by
  intro l
  induction l with
  | nil => rfl
  | cons r l ih =>
    rw [List.map_cons, countTitle_cons, countTitle_cons, ih]
    rfl

theorem countTitle_append (t : Str) (a b : List Regulation) :
    countTitle t (a ++ b) = countTitle t a + countTitle t b := by
  unfold countTitle
  rw [List.filter_append, List.length_append]

theorem countTitle_eq_zero {t : Str} : ∀ {l : List Regulation},
    (∀ r ∈ l, r.title ≠ t) → countTitle t l = 0 := by
  intro l
  induction l with
  | nil => intro _; rfl
  | cons r l ih =>
    intro H
    rw [countTitle_cons, if_neg (H r (List.mem_cons_self _ _))]
    simpa using ih fun x hx => H x (List.mem_cons_of_mem _ hx)

theorem title_mem_of_countTitle_ne_zero {t : Str} : ∀ {l : List Regulation},
    countTitle t l ≠ 0 → t ∈ titles l := by
  intro l
  induction l with
  | nil => intro h; exact absurd rfl h
  | cons r l ih =>
    intro h
    rw [countTitle_cons] at h
    by_cases hr : r.title = t
    · rw [titles_cons, hr]
      exact List.mem_cons_self _ _
    · rw [if_neg hr] at h
      rw [titles_cons]
      exact List.mem_cons_of_mem _ (ih (by simpa using h))

theorem runMonitor_memRegs (today : Date) (adapters : List (AdapterSpec × List FeedEntry))
    (file0 : List Regulation) :
    (runMonitor today adapters file0).memRegs
      = file0.map markOld ++ runNew today file0 adapters := rfl

/-- Claim C1, counterexample: the dedup check only consults the pre-run
store, so the same title arriving through both Reuters adapters (which read
the same feed) within one run is persisted twice — the stored collection
holds two distinct records with equal titles. -/
theorem duplicate_title_single_run :
    titles (runMonitor today0
        [(reutersEnvSpec, [eReuters]), (reutersSocialSpec, [eReuters])] []).fileRegs
      = ["EEOC climate discrimination lawsuit ruling".data,
         "EEOC climate discrimination lawsuit ruling".data] ∧
    (runMonitor today0
        [(reutersEnvSpec, [eReuters]), (reutersSocialSpec, [eReuters])] []).fileRegs[0]?
      ≠ (runMonitor today0
        [(reutersEnvSpec, [eReuters]), (reutersSocialSpec, [eReuters])] []).fileRegs[1]? ∧
    (runMonitor today0
        [(reutersEnvSpec, [eReuters]), (reutersSocialSpec, [eReuters])] []).fileRegs[1]?
      ≠ none := by
  decide

/-- Claim C1 (amended): every record added during a run has a title that
differs (case-sensitively) from the title of every record that was in the
store before the run; uniqueness among the records added within a single
run is not guaranteed. -/
theorem new_titles_distinct_from_store (today : Date) (regs : List Regulation)
    (adapters : List (AdapterSpec × List FeedEntry)) (r s : Regulation)
    (hr : r ∈ runNew today regs adapters) (hs : s ∈ regs) : r.title ≠ s.title := by
  obtain ⟨A, e, i, hre, hnot⟩ := mem_runNew hr
  intro hEq
  apply hnot
  rw [hre, show (mkRecord A today i e).title = e.title from rfl] at hEq
  rw [hEq]
  exact List.mem_map_of_mem _ hs

/-- Witness for the amended C1 theorem at a concrete run. -/
theorem new_titles_distinct_from_store_witness :
    (mkRecord secOfficialSpec today0 2 eSec).title ≠ rec0.title :=
  new_titles_distinct_from_store today0 [rec0] [(secOfficialSpec, [eSec])]
    (mkRecord secOfficialSpec today0 2 eSec) rec0 (by decide) (by decide)

/-- Claim C2: running the pipeline a second time over unchanged feeds with
the store persisted by the first run adds no records — the second run's new
list is empty, the persisted file is unchanged, and the in-memory count
equals the stored count; moreover a store holding exactly one record with a
given title still holds exactly one record with that title after any run
(a candidate with a stored title is dropped). -/
theorem pipeline_idempotent_dedup :
    (∀ (today : Date) (adapters : List (AdapterSpec × List FeedEntry))
        (file0 : List Regulation),
      runNew today (runMonitor today adapters file0).fileRegs adapters = [] ∧
      (runMonitor today adapters (runMonitor today adapters file0).fileRegs).fileRegs
        = (runMonitor today adapters file0).fileRegs ∧
      (runMonitor today adapters (runMonitor today adapters file0).fileRegs).memRegs.length
        = (runMonitor today adapters file0).fileRegs.length) ∧
    (∀ (today : Date) (adapters : List (AdapterSpec × List FeedEntry))
        (file0 : List Regulation) (t : Str),
      countTitle t file0 = 1 →
      countTitle t (runMonitor today adapters file0).fileRegs = 1) := by
  constructor
  · intro today adapters file0
    have h1 := run_idem_core today adapters file0
    refine ⟨h1, ?_, ?_⟩
    · rw [runMonitor_fileRegs, if_pos h1]
    · rw [runMonitor_memRegs, h1, List.append_nil, List.length_map]
  · intro today adapters file0 t hcount
    rw [runMonitor_fileRegs]
    by_cases hn : runNew today file0 adapters = []
    · rw [if_pos hn]
      exact hcount
    · rw [if_neg hn, countTitle_append, countTitle_markOld, hcount]
      have hz : countTitle t (runNew today file0 adapters) = 0 := by
        apply countTitle_eq_zero
        intro r hr hEq
        obtain ⟨A, e, i, hre, hnot⟩ := mem_runNew hr
        apply hnot
        have he : e.title = t := by
          rw [hre] at hEq
          exact hEq
        rw [he]
        exact title_mem_of_countTitle_ne_zero (hcount ▸ one_ne_zero)
      rw [hz]

/-- Witness for C2: the spec's scenario — the candidate title is already in
the store, so exactly one record with that title remains after the run. -/
theorem pipeline_idempotent_dedup_witness :
    countTitle ("Climate update 2025".data)
      (runMonitor today0 [(secOfficialSpec, [eDup])] [rec0]).fileRegs = 1 :=
  pipeline_idempotent_dedup.2 today0 [(secOfficialSpec, [eDup])] [rec0]
    ("Climate update 2025".data) (by decide)

/-- Claim C3, counterexample: a run that finds no new records does not save,
so the `isNew := false` reset is not reflected in the persisted file — the
file still holds the record with `isNew = true` while the in-memory
collection holds it with `isNew = false`. -/
theorem no_save_when_no_new :
    (runMonitor today0 [(secOfficialSpec, [])] [rec0]).fileRegs.map (fun r => r.isNew)
      = [true] ∧
    (runMonitor today0 [(secOfficialSpec, [])] [rec0]).memRegs.map (fun r => r.isNew)
      = [false] ∧
    (runMonitor today0 [(secOfficialSpec, [])] [rec0]).fileRegs
      ≠ (runMonitor today0 [(secOfficialSpec, [])] [rec0]).memRegs := by
  decide

/-- Claim C3 (amended): the collection is persisted at run end exactly when
at least one new record was produced; with zero new records the store file
is left untouched, so the `isNew` reset stays in memory only. -/
theorem persistence_conditional (today : Date)
    (adapters : List (AdapterSpec × List FeedEntry)) (file0 : List Regulation) :
    ((runMonitor today adapters file0).newRegs ≠ [] →
      (runMonitor today adapters file0).fileRegs
        = (runMonitor today adapters file0).memRegs) ∧
    ((runMonitor today adapters file0).newRegs = [] →
      (runMonitor today adapters file0).fileRegs = file0) := by
  constructor
  · intro h
    have h' : runNew today file0 adapters ≠ [] := h
    show (if runNew today file0 adapters = [] then file0
      else file0.map markOld ++ runNew today file0 adapters) = _
    rw [if_neg h']
    rfl
  · intro h
    have h' : runNew today file0 adapters = [] := h
    show (if runNew today file0 adapters = [] then file0
      else file0.map markOld ++ runNew today file0 adapters) = file0
    rw [if_pos h']

/-- Witness for the amended C3 theorem: the no-new-records branch leaves the
file unchanged. -/
theorem persistence_conditional_witness :
    (runMonitor today0 [(secOfficialSpec, [])] [rec0]).fileRegs = [rec0] :=
  (persistence_conditional today0 [(secOfficialSpec, [])] [rec0]).2 (by decide)

/-- Claim C4, counterexample: a parseable date with a three-digit year is
formatted with the unpadded platform `strftime`, so `parse_date` returns
`333-01-01`, which does not match the canonical `YYYY-MM-DD` shape. -/
theorem unpadded_year_not_canonical :
    parse_date today0 ("0333-01-01".data) = "333-01-01".data ∧
    canonicalYMD ("333-01-01".data) = false := by
  decide

/-- Claim C4 (amended): `parse_date` is total and always returns the
formatted value of a valid date — the parsed date on success, the current
processing date when every known format fails — and that output matches
the canonical `YYYY-MM-DD` shape whenever the date's year is at least
1000 (years below 1000 are emitted unpadded by the platform strftime). -/
theorem parse_date_total_canonical :
    (∀ (today : Date) (s : Str), validDate today = true →
      ∃ dt : Date, parse_date today s = fmtDate dt ∧ validDate dt = true ∧
        (1000 ≤ dt.y → canonicalYMD (parse_date today s) = true)) ∧
    (∀ (today : Date) (s : Str),
      parseAnyFormat (pyPreprocess s) = none → parse_date today s = fmtDate today) :=
  ⟨fun today s h => parse_date_shape_canonical today h s,
   fun today s h => parse_date_fallback today s h⟩

/-- Witness for the amended C4 theorem at an input no format matches. -/
theorem parse_date_total_canonical_witness :
    (∃ dt : Date, parse_date today0 ("June 5, 2025".data) = fmtDate dt ∧
      validDate dt = true ∧
      (1000 ≤ dt.y → canonicalYMD (parse_date today0 ("June 5, 2025".data)) = true)) ∧
    parse_date today0 ("June 5, 2025".data) = fmtDate today0 :=
  ⟨parse_date_total_canonical.1 today0 ("June 5, 2025".data) (by decide),
   parse_date_total_canonical.2 today0 ("June 5, 2025".data) (by decide)⟩

/-- Claim C5 (amended): every record added by an adapter of the final
monitor carries the formatted value of a valid date, and whenever that
date's year is at least 1000 it reparses as `YYYY-MM-DD` and lies on or
after January 1, 2025; a date string `parseYMD` rejects passes
`is_recent_enough` (fail-open) — which also lets an unpadded sub-1000-year
date through — and the legacy `check_sec_feed` of `esg_monitor.py` applies
no recency filter at all (see the counterexample). -/
theorem recency_cutoff_final_adapters :
    (∀ (A : AdapterSpec) (today : Date), validDate today = true →
      ∀ (regs : List Regulation) (entries : List FeedEntry) (r : Regulation),
        r ∈ checkAdapter A today regs entries →
        ∃ dt : Date, r.date = fmtDate dt ∧ validDate dt = true ∧
          (1000 ≤ dt.y → parseYMD r.date = some dt ∧ dateLe ⟨2025, 1, 1⟩ dt = true)) ∧
    (∀ s : Str, parseYMD s = none → is_recent_enough s = true) := by
  constructor
  · intro A today hvalid regs entries r hr
    obtain ⟨e, i, hre, -, -, hrec⟩ := mem_newItemsAux hr
    obtain ⟨dt, hpd, hdt⟩ := parse_date_shape today hvalid e.published
    have hrd : r.date = fmtDate dt := by
      rw [hre, show (mkRecord A today i e).date = parse_date today e.published from rfl,
        hpd]
    refine ⟨dt, hrd, hdt, fun hy => ⟨?_, ?_⟩⟩
    · rw [hrd, parseYMD_fmtDate hdt hy]
    · rw [hpd, is_recent_fmtDate hdt hy] at hrec
      exact hrec
  · intro s h
    unfold is_recent_enough
    rw [h]

/-- Claim C5, counterexample: `check_sec_feed` of `esg_monitor.py` adds a
record dated 2024-03-05, strictly before the January 1, 2025 cutoff; and
even a final-monitor adapter persists a year-333 entry, whose unpadded
stored date fails the `YYYY-MM-DD` reparse and slips through the fail-open
recency filter despite predating the cutoff. -/
theorem em_sec_feed_ignores_cutoff :
    ((em_check_sec_feed today0 [] [emOld] []).map (fun r => r.date))
      = ["2024-03-05".data] ∧
    is_recent_enough ("2024-03-05".data) = false ∧
    ((checkAdapter secOfficialSpec today0 [] [eAncient]).map (fun r => r.date))
      = ["333-01-01".data] ∧
    parseYMD ("333-01-01".data) = none ∧
    is_recent_enough ("333-01-01".data) = true := by
  decide

/-- Witness for the amended C5 theorem. -/
theorem recency_cutoff_final_adapters_witness :
    (∃ dt : Date, (mkRecord secOfficialSpec today0 1 eSec).date = fmtDate dt ∧
      validDate dt = true ∧
      (1000 ≤ dt.y → parseYMD (mkRecord secOfficialSpec today0 1 eSec).date = some dt ∧
        dateLe ⟨2025, 1, 1⟩ dt = true)) ∧
    is_recent_enough ("not a date".data) = true :=
  ⟨recency_cutoff_final_adapters.1 secOfficialSpec today0 (by decide) [] [eSec]
      (mkRecord secOfficialSpec today0 1 eSec) (by decide),
   recency_cutoff_final_adapters.2 ("not a date".data) (by decide)⟩

/-- Claim C6 (code bug): an ISO-8601 input with a positive UTC offset is
truncated at the `'+'` before any format is tried, so `parse_date` returns
the current-date fallback instead of the contained date; the same input
with a negative offset parses, showing the `%z` format was meant to
apply. -/
theorem iso_positive_offset_falls_back :
    parse_date today0 ("2025-06-01T10:00:00+02:00".data) = fmtDate today0 ∧
    fmtDate today0 = "2026-10-12".data ∧
    ("2026-10-12".data : Str) ≠ "2025-06-01".data ∧
    pyPreprocess ("2025-06-01T10:00:00+02:00".data) = "2025-06-01T10:00:00".data ∧
    parse_date today0 ("2025-06-01T10:00:00-04:00".data) = "2025-06-01".data := by
  decide

/-- Claim C7, counterexample: a Reuters entry matching at least five tag
groups receives the capped five tags plus the adapter's `Reuters` tag —
six tags in the persisted record. -/
theorem reuters_six_tags :
    ((checkAdapter reutersEnvSpec today0 [] [eTags]).map (fun r => r.tags))
      = [["Climate".data, "CSRD".data, "ISSB".data, "SB 253".data, "EEOC".data,
          "Reuters".data]] ∧
    ((checkAdapter reutersEnvSpec today0 [] [eTags]).map (fun r => r.tags.length))
      = [6] := by
  decide

/-- Claim C7 (amended): every record produced by an adapter has at most
five extracted tags plus that adapter's fixed extra tags (six for the two
Reuters adapters, five elsewhere). -/
theorem tags_length_bound (A : AdapterSpec) (today : Date) (regs : List Regulation)
    (entries : List FeedEntry) (r : Regulation)
    (hr : r ∈ checkAdapter A today regs entries) :
    r.tags.length ≤ 5 + A.extraTags.length := by
  obtain ⟨e, i, hre, -, -, -⟩ := mem_newItemsAux hr
  rw [hre, show (mkRecord A today i e).tags
      = extract_tags e.title e.description ++ A.extraTags from rfl,
    List.length_append]
  have h5 : (extract_tags e.title e.description).length ≤ 5 := by
    unfold extract_tags
    rw [List.length_take]
    exact min_le_left _ _
  omega

/-- Witness for the amended C7 theorem at the six-tag Reuters record. -/
theorem tags_length_bound_witness :
    (mkRecord reutersEnvSpec today0 1 eTags).tags.length
      ≤ 5 + reutersEnvSpec.extraTags.length :=
  tags_length_bound reutersEnvSpec today0 [] [eTags]
    (mkRecord reutersEnvSpec today0 1 eTags) (by decide)

/-- Claim C8, counterexample: the final monitor also treats `enacted` and
`court order` as critical terms, which the claim's three-way policy (with
only `final rule`, `adopted`, `injunction`, `lawsuit` critical) classifies
as `medium`; and `categorize_priority` of `esg_monitor.py`, also cited by
the claim, uses entirely different lists — `Rule adopted` is `medium`
there where the claim says `critical`, and `Mandatory reporting` is
`critical` there where the claim says `medium`. -/
theorem priority_extra_terms :
    categorize_priority ("Law enacted".data) [] = "critical".data ∧
    specPriority ("Law enacted".data) [] = "medium".data ∧
    categorize_priority ("Court order issued".data) [] = "critical".data ∧
    specPriority ("Court order issued".data) [] = "medium".data ∧
    em_categorize_priority ("Rule adopted".data) [] = "medium".data ∧
    specPriority ("Rule adopted".data) [] = "critical".data ∧
    em_categorize_priority ("Mandatory reporting".data) [] = "critical".data ∧
    specPriority ("Mandatory reporting".data) [] = "medium".data ∧
    ("critical".data : Str) ≠ "medium".data := by
  decide

/-- Claim C8 (amended): each of the two cited classifiers follows its own
three-way keyword policy on the lower-cased combined text. The final
monitor's `categorize_priority` returns `critical` on any of `final rule`,
`adopted`, `enacted`, `injunction`, `lawsuit`, `court order`; `high` on
none of those but any of `proposed`, `draft`, `consultation`; else
`medium`. The `esg_monitor.py` variant returns `critical` on any of
`required`, `mandatory`, `final rule`, `enforcement`, `deadline`; `high`
on none of those but any of `proposed`, `amendment`, `update`,
`new requirement`; else `medium`. -/
theorem priority_policy_full_lists (title description : Str) :
    ((hasAny (combineText title description) finalCriticalTerms = true →
      categorize_priority title description = "critical".data) ∧
    (hasAny (combineText title description) finalCriticalTerms = false →
      hasAny (combineText title description) finalHighTerms = true →
      categorize_priority title description = "high".data) ∧
    (hasAny (combineText title description) finalCriticalTerms = false →
      hasAny (combineText title description) finalHighTerms = false →
      categorize_priority title description = "medium".data)) ∧
    ((hasAny (combineText title description) em_criticalTerms = true →
      em_categorize_priority title description = "critical".data) ∧
    (hasAny (combineText title description) em_criticalTerms = false →
      hasAny (combineText title description) em_highTerms = true →
      em_categorize_priority title description = "high".data) ∧
    (hasAny (combineText title description) em_criticalTerms = false →
      hasAny (combineText title description) em_highTerms = false →
      em_categorize_priority title description = "medium".data)) := by
  constructor
  · simp only [categorize_priority]
    refine ⟨?_, ?_, ?_⟩
    · intro h
      rw [if_pos h]
    · intro h1 h2
      rw [if_neg (by simp [h1]), if_pos h2]
    · intro h1 h2
      rw [if_neg (by simp [h1]), if_neg (by simp [h2])]
  · simp only [em_categorize_priority]
    refine ⟨?_, ?_, ?_⟩
    · intro h
      rw [if_pos h]
    · intro h1 h2
      rw [if_neg (by simp [h1]), if_pos h2]
    · intro h1 h2
      rw [if_neg (by simp [h1]), if_neg (by simp [h2])]

/-- Witness for the amended C8 theorem, exercising both classifiers. -/
theorem priority_policy_full_lists_witness :
    categorize_priority ("Rule adopted".data) [] = "critical".data ∧
    em_categorize_priority ("Mandatory reporting".data) [] = "critical".data :=
  ⟨(priority_policy_full_lists ("Rule adopted".data) []).1.1 (by decide),
   (priority_policy_full_lists ("Mandatory reporting".data) []).2.1 (by decide)⟩

/-- Claim C9: the entry titled `SEC Adopts Final Climate Disclosure Rule`
with any description containing `final rule` classifies to priority
`critical`, type `disclosure`, and tags including `Climate`. -/
theorem classifier_scenario_sec_adopts (d : Str)
    (hd : strContains (pyLower d) ("final rule".data) = true) :
    categorize_priority ("SEC Adopts Final Climate Disclosure Rule".data) d
      = "critical".data ∧
    categorize_type ("SEC Adopts Final Climate Disclosure Rule".data) d
      = "disclosure".data ∧
    ("Climate".data : Str)
      ∈ extract_tags ("SEC Adopts Final Climate Disclosure Rule".data) d := by
  have htext : combineText ("SEC Adopts Final Climate Disclosure Rule".data) d
      = pyLower ("SEC Adopts Final Climate Disclosure Rule".data) ++ (' ' :: pyLower d) :=
    combineText_eq _ d
  have hfr : strContains
      (combineText ("SEC Adopts Final Climate Disclosure Rule".data) d)
      ("final rule".data) = true := by
    rw [htext]
    exact strContains_append_right _ (strContains_cons _ hd)
  have hcrit : hasAny (combineText ("SEC Adopts Final Climate Disclosure Rule".data) d)
      finalCriticalTerms = true := hasAny_of_mem (by decide) hfr
  have hdisc : strContains
      (combineText ("SEC Adopts Final Climate Disclosure Rule".data) d)
      ("disclosure".data) = true := by
    rw [htext]
    exact strContains_append_left _ (by decide)
  have hclim : hasAny (combineText ("SEC Adopts Final Climate Disclosure Rule".data) d)
      ((["climate", "ghg", "emissions"]).map (fun s => s.data)) = true := by
    have hc : strContains
        (combineText ("SEC Adopts Final Climate Disclosure Rule".data) d)
        ("climate".data) = true := by
      rw [htext]
      exact strContains_append_left _ (by decide)
    exact hasAny_of_mem (by decide) hc
  refine ⟨?_, ?_, ?_⟩
  · simp only [categorize_priority]
    rw [if_pos hcrit]
  · simp only [categorize_type]
    rw [if_pos (by simp [hdisc])]
  · simp only [extract_tags, tag_map]
    rw [List.filter_cons, if_pos (by exact hclim), List.map_cons, List.take_succ_cons]
    exact List.mem_cons_self _ _

/-- Witness for C9 at a concrete description. -/
theorem classifier_scenario_sec_adopts_witness :
    categorize_priority ("SEC Adopts Final Climate Disclosure Rule".data)
        ("The final rule takes effect in 2026".data) = "critical".data ∧
    categorize_type ("SEC Adopts Final Climate Disclosure Rule".data)
        ("The final rule takes effect in 2026".data) = "disclosure".data ∧
    ("Climate".data : Str) ∈ extract_tags
        ("SEC Adopts Final Climate Disclosure Rule".data)
        ("The final rule takes effect in 2026".data) :=
  classifier_scenario_sec_adopts ("The final rule takes effect in 2026".data) (by decide)

/-- Claim C10: text carrying the exclusion phrase `what employers should
know` and no strong regulatory term is rejected by `is_esg_related`, and a
feed entry whose combined text carries that phrase is discarded by the
Reuters social adapter. -/
theorem exclusion_gating_rejects :
    (∀ text : Str,
      strContains (pyLower text) ("what employers should know".data) = true →
      hasAny (pyLower text) rm_strongRegulatory = false →
      rm_is_esg_related text = false) ∧
    (∀ (today : Date) (regs : List Regulation) (e : FeedEntry),
      strContains (combineText e.title e.description)
          ("what employers should know".data) = true →
      checkAdapter reutersSocialSpec today regs [e] = []) := by
  constructor
  · intro text hEx hStr
    have hexcl : hasAny (pyLower text) rm_exclusions = true := by
      have hc : strContains (pyLower text) ("employers should know".data) = true :=
        strContains_trans hEx (by decide)
      exact hasAny_of_mem (by decide) hc
    simp only [rm_is_esg_related]
    rw [if_pos]
    simp [hexcl, hStr]
  · intro today regs e hJ
    have hjunk : hasAny (combineText e.title e.description) reutersSocialJunkTerms = true :=
      hasAny_of_mem (by decide) hJ
    have hneg : ¬(reutersSocialSpec.relevant (combineText e.title e.description) ∧
        e.title ∉ titles regs ∧ is_recent_enough (parse_date today e.published)) := by
      rintro ⟨h1, -, -⟩
      simp only [reutersSocialSpec] at h1
      rw [hjunk] at h1
      simp at h1
    show newItemsAux reutersSocialSpec today regs [e] 0 = []
    rw [newItemsAux, if_neg hneg]
    rfl

/-- Witness for C10 at a concrete commentary text and entry. -/
theorem exclusion_gating_rejects_witness :
    rm_is_esg_related ("HR Dive: what employers should know about DEI".data) = false ∧
    checkAdapter reutersSocialSpec today0 [] [junkEntry] = [] :=
  ⟨exclusion_gating_rejects.1 ("HR Dive: what employers should know about DEI".data)
      (by decide) (by decide),
   exclusion_gating_rejects.2 today0 [] junkEntry (by decide)⟩
